import Mathlib

/-!
Verification of the silentjack silence/dead-air detector.

The definitions below are a shallow embedding of `src/silentjack.c`:
the peak-accumulator callback (`process_peak`), the read-and-reset of the
peak cell (`read_peak`), and the once-per-second control loop of `main`
(grace countdown, connection check, silence detection, no-dynamic
detection).  Decibel values and audio samples are modelled as rationals;
the counters and periods, which are C `int`s that only ever hold
non-negative values in these code paths, are modelled as naturals.
The `lin2db` conversion lives in `db.h`, which is not part of this
repository's sources, so it is passed as an explicit function parameter
wherever it is needed.
-/

namespace SilentJack

/-- The two trigger events the control loop can report on a tick
(`**SILENCE**` and `**NO DYNAMIC**` in the source). -/
inductive Fire where
  | SILENCE
  | NO_DYNAMIC
deriving DecidableEq, Repr

/-- The configuration read from the command line in `main`
(lines 218-227 of `silentjack.c`), immutable during the loop.
Thresholds are decibel values; a threshold of exactly 0 disables
the corresponding detector (the C code tests the float for truthiness). -/
structure Config where
  silence_theshold : ℚ
  nodynamic_theshold : ℚ
  silence_period : ℕ
  nodynamic_period : ℕ
  grace_period : ℕ
deriving Repr

/-- The mutable locals of `main`'s loop that the detection logic reads and
writes: the current and previous decibel readings, the two debounce
counters, and the grace countdown. -/
structure DState where
  peakdb : ℚ
  last_peakdb : ℚ
  silence_count : ℕ
  nodynamic_count : ℕ
  in_grace : ℕ
deriving DecidableEq, Repr

/-- Initial values of `main`'s locals: everything starts at zero. -/
def initState : DState :=
  { peakdb := 0, last_peakdb := 0, silence_count := 0,
    nodynamic_count := 0, in_grace := 0 }

/-- Silence detection block of `main` (lines 292-312): skipped when the
threshold is zero; otherwise increment or reset `silence_count` by
comparing the current reading with the threshold, then fire when the
count has reached the period, resetting the count and starting grace. -/
def silence_detect (cfg : Config) (st : DState) : DState × List Fire :=
  if cfg.silence_theshold = 0 then (st, [])
  else
    let c := if st.peakdb < cfg.silence_theshold then st.silence_count + 1 else 0
    if cfg.silence_period ≤ c then
      ({ st with silence_count := 0, in_grace := cfg.grace_period }, [Fire.SILENCE])
    else
      ({ st with silence_count := c }, [])

/-- No-dynamic detection block of `main` (lines 316-337): skipped when the
threshold is zero; otherwise increment or reset `nodynamic_count` by
comparing `|last_peakdb - peakdb|` with the threshold, then fire when the
count has reached the period, resetting the count and starting grace. -/
def nodynamic_detect (cfg : Config) (st : DState) : DState × List Fire :=
  if cfg.nodynamic_theshold = 0 then (st, [])
  else
    let c := if |st.last_peakdb - st.peakdb| < cfg.nodynamic_theshold then
               st.nodynamic_count + 1
             else 0
    if cfg.nodynamic_period ≤ c then
      ({ st with nodynamic_count := 0, in_grace := cfg.grace_period }, [Fire.NO_DYNAMIC])
    else
      ({ st with nodynamic_count := c }, [])

/-- One iteration of `main`'s loop (lines 267-342), at the level of the
detection state machine.  The per-tick input is `none` when
`jack_port_connected` reports the input port unconnected, and `some r`
when it is connected and `read_peak` yields the decibel reading `r`.
The grace check comes first (line 273), before the connection check
(line 280); a grace tick decrements `in_grace` and `continue`s.
A disconnected tick `continue`s with nothing changed.  Otherwise the
previous reading is saved, the new reading installed, and the two
detection blocks run in order, each possibly firing. -/
def tick (cfg : Config) (input : Option ℚ) (st : DState) : DState × List Fire :=
  if 0 < st.in_grace then
    ({ st with in_grace := st.in_grace - 1 }, [])
  else
    match input with
    | none => (st, [])
    | some r =>
      let st1 := { st with last_peakdb := st.peakdb, peakdb := r }
      let p1 := silence_detect cfg st1
      let p2 := nodynamic_detect cfg p1.1
      (p2.1, p1.2 ++ p2.2)

/-- Iterate `tick` over a list of per-tick inputs, collecting the fire
events of each tick in order. -/
def run (cfg : Config) (st : DState) : List (Option ℚ) → DState × List (List Fire)
  | [] => (st, [])
  | i :: is =>
    let p := tick cfg i st
    let q := run cfg p.1 is
    (q.1, p.2 :: q.2)

/-- One invocation of the JACK process callback `process_peak`
(lines 63-84): fold each sample's absolute value into the shared peak
cell, keeping the larger (`if (s > peak) peak = s`). -/
def process_peak (peak : ℚ) (block : List ℚ) : ℚ :=
  block.foldl (fun p s => if p < |s| then |s| else p) peak

/-- A sequence of process-callback invocations between two control-loop
reads, each delivering one block of samples. -/
def observe_blocks (peak : ℚ) (blocks : List (List ℚ)) : ℚ :=
  blocks.foldl process_peak peak

/-- `read_peak` (lines 51-57): convert the peak cell to decibels and reset
the cell to zero, returning the pair (converted reading, new cell value).
`lin2db` comes from `db.h`, which is outside this repository's sources,
so it is a parameter. -/
def read_peak (lin2db : ℚ → ℚ) (peak : ℚ) : ℚ × ℚ :=
  (lin2db peak, 0)

/-- The maximum absolute sample value of a list of samples (zero for the
empty list), the value the spec says the accumulator must hold. -/
def max_abs (l : List ℚ) : ℚ :=
  l.foldl (fun m s => max m |s|) 0

/-- The primitive shared-memory operations on the global `peak` cell, at
the granularity at which the two threads interleave: `rd` is the
consumer's read of the cell (line 53), `rst` the consumer's write of
zero (line 54) — `read_peak` is these two separate steps, not one atomic
step — and `obs s` is the producer folding one sample's absolute value
into the cell (lines 76-79 of `process_peak`). -/
inductive CellOp where
  | rd
  | rst
  | obs (s : ℚ)
deriving DecidableEq, Repr

/-- The shared cell together with the history of values the consumer's
reads have returned, oldest first. -/
structure CellState where
  peak : ℚ
  reads : List ℚ
deriving DecidableEq, Repr

/-- Effect of one primitive memory operation on the cell. -/
def cell_step (st : CellState) : CellOp → CellState
  | CellOp.rd => { st with reads := st.reads ++ [st.peak] }
  | CellOp.rst => { st with peak := 0 }
  | CellOp.obs s => { st with peak := if st.peak < |s| then |s| else st.peak }

/-- Run an interleaving of primitive memory operations. -/
def cell_run (st : CellState) (ops : List CellOp) : CellState :=
  ops.foldl cell_step st

/-- Modelled from the spec: the atomic read-and-reset that §4.1 and §5
require (`readAndReset` must serialize with the producer's updates;
`db.h` and any synchronisation primitive are outside this repository's
sources).  It returns the current peak into the read history and zeroes
the cell in a single indivisible step. -/
def atomic_read_reset (st : CellState) : CellState :=
  { peak := 0, reads := st.reads ++ [st.peak] }

/-- The state of the whole engine: the shared linear peak cell plus the
control loop's locals. -/
structure LoopState where
  peak : ℚ
  dst : DState
deriving DecidableEq, Repr

/-- What one second of wall time delivers to the loop: whether
`jack_port_connected` reports an upstream connection, and the sample
blocks the process callback received since the previous loop iteration. -/
structure TickInput where
  connected : Bool
  blocks : List (List ℚ)
deriving DecidableEq, Repr

/-- One iteration of `main`'s loop together with the peak cell: the
callback first folds the second's blocks into the cell; then the grace
check (line 273), the connection check (line 280), and — on an evaluated
tick — the read-and-reset of the cell into the readings and the two
detection blocks. -/
def loop_tick (cfg : Config) (lin2db : ℚ → ℚ) (inp : TickInput) (st : LoopState) :
    LoopState × List Fire :=
  let pk := observe_blocks st.peak inp.blocks
  if 0 < st.dst.in_grace then
    ({ peak := pk, dst := { st.dst with in_grace := st.dst.in_grace - 1 } }, [])
  else if inp.connected = false then
    ({ peak := pk, dst := st.dst }, [])
  else
    let rp := read_peak lin2db pk
    let d1 := { st.dst with last_peakdb := st.dst.peakdb, peakdb := rp.1 }
    let p1 := silence_detect cfg d1
    let p2 := nodynamic_detect cfg p1.1
    ({ peak := rp.2, dst := p2.1 }, p1.2 ++ p2.2)

/-- Iterate `loop_tick` over the inputs of successive seconds. -/
def run_loop (cfg : Config) (lin2db : ℚ → ℚ) (st : LoopState) :
    List TickInput → LoopState × List (List Fire)
  | [] => (st, [])
  | i :: is =>
    let p := loop_tick cfg lin2db i st
    let q := run_loop cfg lin2db p.1 is
    (q.1, p.2 :: q.2)

/-- A tick is skipped when the loop `continue`s before reading the peak:
either grace is still counting down or the input port is unconnected. -/
def skipped (st : LoopState) (inp : TickInput) : Bool :=
  (st.dst.in_grace != 0) || (!inp.connected)

/-- Every tick of the input list, run from `st`, is a skipped tick. -/
def all_skipped (cfg : Config) (lin2db : ℚ → ℚ) : LoopState → List TickInput → Bool
  | _, [] => true
  | st, i :: is =>
      skipped st i && all_skipped cfg lin2db (loop_tick cfg lin2db i st).1 is


/-- A concrete configuration used by the witnesses: silence threshold
−40 dB with period 2, no-dynamic threshold 6 dB with period 3, one
second of grace. -/
def cfgA : Config :=
  { silence_theshold := -40, nodynamic_theshold := 6,
    silence_period := 2, nodynamic_period := 3, grace_period := 1 }

/-- A concrete state used by the witnesses: one prior second of silence
already counted, grace expired, previous reading −49 dB. -/
def stA : DState :=
  { peakdb := -49, last_peakdb := 0, silence_count := 1,
    nodynamic_count := 0, in_grace := 0 }

/-- A concrete state used by the witnesses: two seconds left in grace,
with nonzero counters. -/
def stB : DState :=
  { peakdb := 0, last_peakdb := 0, silence_count := 3,
    nodynamic_count := 4, in_grace := 2 }

/-- The configuration of the C4 scenario: silence threshold −40 dB,
period 3 ticks, no grace, no-dynamic detector disabled. -/
def cfgC4 : Config :=
  { silence_theshold := -40, nodynamic_theshold := 0,
    silence_period := 3, nodynamic_period := 10, grace_period := 0 }

/-- The reading sequence of the C4 scenario. -/
def readsC4 : List (Option ℚ) :=
  [some (-50), some (-50), some (-45), some (-50), some (-50), some (-50)]

/-- A configuration with both thresholds zero, disabling both detectors. -/
def cfgZ : Config :=
  { silence_theshold := 0, nodynamic_theshold := 0,
    silence_period := 1, nodynamic_period := 1, grace_period := 0 }

/-- A configuration in which both detectors have period 1 and grace is
three seconds. -/
def cfgB : Config :=
  { silence_theshold := -40, nodynamic_theshold := 6,
    silence_period := 1, nodynamic_period := 1, grace_period := 3 }

/-- A configuration whose silence detector is enabled with debounce
period zero (and the no-dynamic detector disabled). -/
def cfgP0 : Config :=
  { silence_theshold := -40, nodynamic_theshold := 0,
    silence_period := 0, nodynamic_period := 10, grace_period := 0 }

/-- The loop state of the C10 witness: reset cell, previous reading
−30 dB, one second of grace left. -/
def lsC : LoopState :=
  { peak := 0,
    dst := { peakdb := -30, last_peakdb := -20, silence_count := 0,
             nodynamic_count := 0, in_grace := 1 } }

/-- The skipped interval of the C10 witness: one grace tick, then one
disconnected tick. -/
def l10 : List TickInput :=
  [{ connected := true, blocks := [] }, { connected := false, blocks := [] }]

/-- The first evaluated tick of the C10 witness. -/
def f10 : TickInput := { connected := true, blocks := [] }

@[simp]
lemma silence_ne_nodynamic : Fire.SILENCE ≠ Fire.NO_DYNAMIC := by decide

@[simp]
lemma nodynamic_ne_silence : Fire.NO_DYNAMIC ≠ Fire.SILENCE := by decide

lemma tick_eval (cfg : Config) (r : ℚ) (st : DState) (hg : st.in_grace = 0) :
    tick cfg (some r) st =
      (let st1 := { st with last_peakdb := st.peakdb, peakdb := r }
       let p1 := silence_detect cfg st1
       let p2 := nodynamic_detect cfg p1.1
       (p2.1, p1.2 ++ p2.2)) := by
  simp [tick, hg]

@[simp]
lemma silence_detect_peakdb (cfg : Config) (st : DState) :
    (silence_detect cfg st).1.peakdb = st.peakdb := by
  simp only [silence_detect]
  split_ifs <;> rfl

@[simp]
lemma silence_detect_last_peakdb (cfg : Config) (st : DState) :
    (silence_detect cfg st).1.last_peakdb = st.last_peakdb := by
  simp only [silence_detect]
  split_ifs <;> rfl

@[simp]
lemma silence_detect_nodynamic_count (cfg : Config) (st : DState) :
    (silence_detect cfg st).1.nodynamic_count = st.nodynamic_count := by
  simp only [silence_detect]
  split_ifs <;> rfl

@[simp]
lemma silence_detect_fires (cfg : Config) (st : DState) :
    Fire.NO_DYNAMIC ∉ (silence_detect cfg st).2 := by
  simp only [silence_detect]
  split_ifs <;> simp

@[simp]
lemma nodynamic_detect_peakdb (cfg : Config) (st : DState) :
    (nodynamic_detect cfg st).1.peakdb = st.peakdb := by
  simp only [nodynamic_detect]
  split_ifs <;> rfl

@[simp]
lemma nodynamic_detect_last_peakdb (cfg : Config) (st : DState) :
    (nodynamic_detect cfg st).1.last_peakdb = st.last_peakdb := by
  simp only [nodynamic_detect]
  split_ifs <;> rfl

@[simp]
lemma nodynamic_detect_silence_count (cfg : Config) (st : DState) :
    (nodynamic_detect cfg st).1.silence_count = st.silence_count := by
  simp only [nodynamic_detect]
  split_ifs <;> rfl

@[simp]
lemma nodynamic_detect_fires (cfg : Config) (st : DState) :
    Fire.SILENCE ∉ (nodynamic_detect cfg st).2 := by
  simp only [nodynamic_detect]
  split_ifs <;> simp

lemma nodynamic_detect_in_grace_of (cfg : Config) (st : DState)
    (h : st.in_grace = cfg.grace_period) :
    (nodynamic_detect cfg st).1.in_grace = cfg.grace_period := by
  simp only [nodynamic_detect]
  split_ifs <;> simp [h]

lemma silence_detect_disabled (cfg : Config) (st : DState)
    (hs : cfg.silence_theshold = 0) :
    silence_detect cfg st = (st, []) := by
  simp [silence_detect, hs]

lemma silence_detect_fire (cfg : Config) (st : DState)
    (hs : cfg.silence_theshold ≠ 0)
    (hc : cfg.silence_period ≤
      if st.peakdb < cfg.silence_theshold then st.silence_count + 1 else 0) :
    silence_detect cfg st =
      ({ st with silence_count := 0, in_grace := cfg.grace_period }, [Fire.SILENCE]) := by
  simp only [silence_detect, if_neg hs]
  rw [if_pos hc]

lemma silence_detect_nofire (cfg : Config) (st : DState)
    (hs : cfg.silence_theshold ≠ 0)
    (hc : ¬ cfg.silence_period ≤
      if st.peakdb < cfg.silence_theshold then st.silence_count + 1 else 0) :
    silence_detect cfg st =
      ({ st with silence_count :=
          if st.peakdb < cfg.silence_theshold then st.silence_count + 1 else 0 }, []) := by
  simp only [silence_detect, if_neg hs]
  rw [if_neg hc]

lemma nodynamic_detect_disabled (cfg : Config) (st : DState)
    (hn : cfg.nodynamic_theshold = 0) :
    nodynamic_detect cfg st = (st, []) := by
  simp [nodynamic_detect, hn]

lemma nodynamic_detect_fire (cfg : Config) (st : DState)
    (hn : cfg.nodynamic_theshold ≠ 0)
    (hc : cfg.nodynamic_period ≤
      if |st.last_peakdb - st.peakdb| < cfg.nodynamic_theshold then
        st.nodynamic_count + 1 else 0) :
    nodynamic_detect cfg st =
      ({ st with nodynamic_count := 0, in_grace := cfg.grace_period }, [Fire.NO_DYNAMIC]) := by
  simp only [nodynamic_detect, if_neg hn]
  rw [if_pos hc]

lemma nodynamic_detect_nofire (cfg : Config) (st : DState)
    (hn : cfg.nodynamic_theshold ≠ 0)
    (hc : ¬ cfg.nodynamic_period ≤
      if |st.last_peakdb - st.peakdb| < cfg.nodynamic_theshold then
        st.nodynamic_count + 1 else 0) :
    nodynamic_detect cfg st =
      ({ st with nodynamic_count :=
          if |st.last_peakdb - st.peakdb| < cfg.nodynamic_theshold then
            st.nodynamic_count + 1 else 0 }, []) := by
  simp only [nodynamic_detect, if_neg hn]
  rw [if_neg hc]

/-- C1: on an evaluated tick (grace expired, input connected with reading
`r`), each enabled sub-detector follows the increment/reset/fire
transition of the spec: the silence detector increments its count when
`r` is strictly below the threshold and resets it to zero otherwise, and
fires (resetting the count and starting grace) exactly when the updated
count has reached the period; the no-dynamic detector does the same with
the condition `|previous - r|` strictly below its threshold. -/
theorem c1_subdetector_transition (cfg : Config) (st : DState) (r : ℚ)
    (hg : st.in_grace = 0) :
    (cfg.silence_theshold ≠ 0 →
      (if cfg.silence_period ≤ (if r < cfg.silence_theshold then st.silence_count + 1 else 0) then
        (tick cfg (some r) st).1.silence_count = 0 ∧
        Fire.SILENCE ∈ (tick cfg (some r) st).2 ∧
        (tick cfg (some r) st).1.in_grace = cfg.grace_period
      else
        (tick cfg (some r) st).1.silence_count =
          (if r < cfg.silence_theshold then st.silence_count + 1 else 0) ∧
        Fire.SILENCE ∉ (tick cfg (some r) st).2)) ∧
    (cfg.nodynamic_theshold ≠ 0 →
      (if cfg.nodynamic_period ≤
          (if |st.peakdb - r| < cfg.nodynamic_theshold then st.nodynamic_count + 1 else 0) then
        (tick cfg (some r) st).1.nodynamic_count = 0 ∧
        Fire.NO_DYNAMIC ∈ (tick cfg (some r) st).2 ∧
        (tick cfg (some r) st).1.in_grace = cfg.grace_period
      else
        (tick cfg (some r) st).1.nodynamic_count =
          (if |st.peakdb - r| < cfg.nodynamic_theshold then st.nodynamic_count + 1 else 0) ∧
        Fire.NO_DYNAMIC ∉ (tick cfg (some r) st).2)) := by
  constructor
  · intro hs
    rw [tick_eval cfg r st hg]
    by_cases hc : cfg.silence_period ≤
        (if r < cfg.silence_theshold then st.silence_count + 1 else 0)
    · rw [if_pos hc]
      have hfire := silence_detect_fire cfg
        { st with last_peakdb := st.peakdb, peakdb := r } hs (by simpa using hc)
      refine ⟨?_, ?_, ?_⟩
      · simp [hfire]
      · simp [hfire]
      · simp only [hfire]
        exact nodynamic_detect_in_grace_of _ _ rfl
    · rw [if_neg hc]
      have hnof := silence_detect_nofire cfg
        { st with last_peakdb := st.peakdb, peakdb := r } hs (by simpa using hc)
      constructor
      · simp [hnof]
      · simp [hnof]
  · intro hn
    rw [tick_eval cfg r st hg]
    by_cases hc : cfg.nodynamic_period ≤
        (if |st.peakdb - r| < cfg.nodynamic_theshold then st.nodynamic_count + 1 else 0)
    · rw [if_pos hc]
      have hfire := nodynamic_detect_fire cfg
        (silence_detect cfg { st with last_peakdb := st.peakdb, peakdb := r }).1 hn
        (by simpa using hc)
      refine ⟨?_, ?_, ?_⟩
      · simp [hfire]
      · simp [hfire]
      · simp [hfire]
    · rw [if_neg hc]
      have hnof := nodynamic_detect_nofire cfg
        (silence_detect cfg { st with last_peakdb := st.peakdb, peakdb := r }).1 hn
        (by simpa using hc)
      constructor
      · simp [hnof]
      · simp [hnof]



/-- Witness for C1 at a concrete input: in `cfgA` from `stA`, a −50 dB
reading makes the silence detector reach its period of 2 and fire,
resetting the count and starting the one-second grace. -/
theorem c1_subdetector_transition_witness :
    stA.in_grace = 0 ∧
    (tick cfgA (some (-50)) stA).1.silence_count = 0 ∧
    Fire.SILENCE ∈ (tick cfgA (some (-50)) stA).2 ∧
    (tick cfgA (some (-50)) stA).1.in_grace = 1 := by
  have h := (c1_subdetector_transition cfgA stA (-50) rfl).1 (by norm_num [cfgA])
  rw [if_pos (by norm_num [cfgA, stA])] at h
  exact ⟨rfl, h.1, h.2.1, h.2.2⟩

/-- C2: a tick with `graceRemaining > 0` decrements it by exactly one,
emits no fire event, and leaves both counters unchanged, whatever the
input; and from the state left by a fire with `graceTicks = 2`
(`in_grace = 2`), the next two ticks produce no fire and no counter
movement regardless of input and end with `in_grace = 0`, so the third
tick after the fire is evaluated normally. -/
theorem c2_grace_suppression (cfg : Config) (st : DState) (inp : Option ℚ)
    (h : 0 < st.in_grace) (st2 : DState) (h2 : st2.in_grace = 2)
    (j1 j2 : Option ℚ) :
    (tick cfg inp st).1.in_grace = st.in_grace - 1 ∧
    (tick cfg inp st).2 = [] ∧
    (tick cfg inp st).1.silence_count = st.silence_count ∧
    (tick cfg inp st).1.nodynamic_count = st.nodynamic_count ∧
    (run cfg st2 [j1, j2]).2 = [[], []] ∧
    (run cfg st2 [j1, j2]).1.silence_count = st2.silence_count ∧
    (run cfg st2 [j1, j2]).1.nodynamic_count = st2.nodynamic_count ∧
    (run cfg st2 [j1, j2]).1.in_grace = 0 := by
  refine ⟨?_, ?_, ?_, ?_, ?_, ?_, ?_, ?_⟩ <;>
    simp [run, tick, h, h2]


/-- Witness for C2 at a concrete input: from `stB` (grace 2), two very
quiet readings cause no fire and no counter movement, and grace
reaches 0. -/
theorem c2_grace_suppression_witness :
    0 < stB.in_grace ∧
    stB.in_grace = 2 ∧
    (run cfgA stB [some (-90), some (-90)]).2 = [[], []] ∧
    (run cfgA stB [some (-90), some (-90)]).1.silence_count = 3 ∧
    (run cfgA stB [some (-90), some (-90)]).1.in_grace = 0 := by
  have h := c2_grace_suppression cfgA stB (some (-90)) (by decide)
    stB rfl (some (-90)) (some (-90))
  exact ⟨by decide, rfl, h.2.2.2.2.1, h.2.2.2.2.2.1, h.2.2.2.2.2.2.2⟩

/-- C3 counterexample: a disconnected tick taken in a state with
`in_grace = 2` decrements `in_grace` — the grace check of the loop comes
before the connection check, so a disconnected tick during grace does
mutate `graceRemaining`, contrary to the claim that such a tick mutates
nothing. -/
theorem c3_counterexample :
    (tick cfgA none stB).1.in_grace ≠ stB.in_grace := by decide

/-- C3 amended: a disconnected tick emits no fire and never mutates
`silenceCount`, `noDynamicCount` or the readings; it leaves
`graceRemaining` unchanged when grace is expired (in which case the whole
state is untouched), but when grace is active the grace countdown runs
first and decrements `graceRemaining` by one. -/
theorem c3_disconnected_tick (cfg : Config) (st : DState) :
    (tick cfg none st).2 = [] ∧
    (tick cfg none st).1.silence_count = st.silence_count ∧
    (tick cfg none st).1.nodynamic_count = st.nodynamic_count ∧
    (tick cfg none st).1.peakdb = st.peakdb ∧
    (tick cfg none st).1.last_peakdb = st.last_peakdb ∧
    (tick cfg none st).1.in_grace = st.in_grace - 1 ∧
    (st.in_grace = 0 → (tick cfg none st).1 = st) := by
  unfold tick
  by_cases h : 0 < st.in_grace
  · simp [h]
    exact fun h0 => absurd h0 (by omega)
  · have h0 : st.in_grace = 0 := by omega
    simp [h, h0]

/-- Witness for C3's amended statement at a concrete input: with grace
expired, a disconnected tick leaves the initial state untouched. -/
theorem c3_disconnected_tick_witness :
    initState.in_grace = 0 ∧ (tick cfgA none initState).1 = initState :=
  ⟨rfl, (c3_disconnected_tick cfgA initState).2.2.2.2.2.2 rfl⟩



/-- C4 counterexample: on the claimed scenario the code fires SILENCE
twice — on the 3rd tick as well as the 6th — because −45 dB is itself
strictly below the −40 dB threshold, so the third reading does not break
the silence streak; the claim of exactly one fire, on the 6th tick, is
false. -/
theorem c4_counterexample :
    (run cfgC4 initState readsC4).2 =
      [[], [], [Fire.SILENCE], [], [], [Fire.SILENCE]] ∧
    (run cfgC4 initState readsC4).2.flatten.length ≠ 1 := by decide

/-- C4 amended: with silence threshold −40 dB, period 3, no grace and the
no-dynamic detector disabled, the readings
[−50, −50, −45, −50, −50, −50] fire SILENCE exactly twice, on the 3rd
and 6th ticks: −45 is itself below the threshold, so the streak is
broken only by the fire itself resetting the count. -/
theorem c4_debounce :
    (run cfgC4 initState readsC4).2 =
      [[], [], [Fire.SILENCE], [], [], [Fire.SILENCE]] ∧
    (run cfgC4 initState readsC4).2.flatten.length = 2 := by decide

lemma run_cons (cfg : Config) (st : DState) (i : Option ℚ) (is : List (Option ℚ)) :
    run cfg st (i :: is) =
      ((run cfg (tick cfg i st).1 is).1,
       (tick cfg i st).2 :: (run cfg (tick cfg i st).1 is).2) := rfl

lemma tick_silence_disabled (cfg : Config) (inp : Option ℚ) (st : DState)
    (h : cfg.silence_theshold = 0) :
    Fire.SILENCE ∉ (tick cfg inp st).2 ∧
    (tick cfg inp st).1.silence_count = st.silence_count := by
  unfold tick
  by_cases hg : 0 < st.in_grace
  · simp [hg]
  · cases inp with
    | none => simp [hg]
    | some r =>
      simp only [if_neg hg]
      rw [silence_detect_disabled cfg _ h]
      simp

lemma tick_nodynamic_disabled (cfg : Config) (inp : Option ℚ) (st : DState)
    (h : cfg.nodynamic_theshold = 0) :
    Fire.NO_DYNAMIC ∉ (tick cfg inp st).2 ∧
    (tick cfg inp st).1.nodynamic_count = st.nodynamic_count := by
  unfold tick
  by_cases hg : 0 < st.in_grace
  · simp [hg]
  · cases inp with
    | none => simp [hg]
    | some r =>
      simp only [if_neg hg]
      rw [nodynamic_detect_disabled cfg _ h]
      simp

/-- C5: a silence threshold of exactly 0 disables the silence detector
for every input sequence — no SILENCE fire ever occurs and
`silence_count` is never mutated; symmetrically, a no-dynamic threshold
of exactly 0 disables the no-dynamic detector entirely. -/
theorem c5_disabled_detectors (cfg : Config) (st : DState) (l : List (Option ℚ)) :
    (cfg.silence_theshold = 0 →
      Fire.SILENCE ∉ (run cfg st l).2.flatten ∧
      (run cfg st l).1.silence_count = st.silence_count) ∧
    (cfg.nodynamic_theshold = 0 →
      Fire.NO_DYNAMIC ∉ (run cfg st l).2.flatten ∧
      (run cfg st l).1.nodynamic_count = st.nodynamic_count) := by
  induction l generalizing st with
  | nil => simp [run]
  | cons i is ih =>
    constructor
    · intro h
      obtain ⟨t1, t2⟩ := tick_silence_disabled cfg i st h
      obtain ⟨r1, r2⟩ := (ih (tick cfg i st).1).1 h
      rw [run_cons]
      simp [t1, t2, r1, r2]
    · intro h
      obtain ⟨t1, t2⟩ := tick_nodynamic_disabled cfg i st h
      obtain ⟨r1, r2⟩ := (ih (tick cfg i st).1).2 h
      rw [run_cons]
      simp [t1, t2, r1, r2]


/-- Witness for C5 at a concrete input: with both thresholds zero, two
dead-quiet readings fire nothing. -/
theorem c5_disabled_detectors_witness :
    Fire.SILENCE ∉ (run cfgZ initState [some (-90), some (-90)]).2.flatten ∧
    Fire.NO_DYNAMIC ∉ (run cfgZ initState [some (-90), some (-90)]).2.flatten :=
  ⟨((c5_disabled_detectors cfgZ initState [some (-90), some (-90)]).1 rfl).1,
   ((c5_disabled_detectors cfgZ initState [some (-90), some (-90)]).2 rfl).1⟩

/-- C6: on an evaluated tick where both detectors are enabled and both
updated counts reach their periods, both fire events are emitted on that
tick (silence first), and grace ends the tick equal to `graceTicks`
exactly — the two assignments both store `graceTicks`, so the value is
set once, not additively. -/
theorem c6_simultaneous_fire (cfg : Config) (st : DState) (r : ℚ)
    (hg : st.in_grace = 0)
    (hs : cfg.silence_theshold ≠ 0) (hn : cfg.nodynamic_theshold ≠ 0)
    (hsc : cfg.silence_period ≤
      (if r < cfg.silence_theshold then st.silence_count + 1 else 0))
    (hnc : cfg.nodynamic_period ≤
      (if |st.peakdb - r| < cfg.nodynamic_theshold then st.nodynamic_count + 1 else 0)) :
    (tick cfg (some r) st).2 = [Fire.SILENCE, Fire.NO_DYNAMIC] ∧
    (tick cfg (some r) st).1.in_grace = cfg.grace_period := by
  rw [tick_eval cfg r st hg]
  have h1 := silence_detect_fire cfg
    { st with last_peakdb := st.peakdb, peakdb := r } hs (by simpa using hsc)
  have h2 := nodynamic_detect_fire cfg
    (DState.mk r st.peakdb 0 st.nodynamic_count cfg.grace_period) hn (by simpa using hnc)
  simp [h1, h2]


/-- Witness for C6 at a concrete input: from `stA` under `cfgB`, a −50 dB
reading is below the −40 dB threshold and within 6 dB of the previous
−49 dB reading, so both detectors reach period 1 and fire together. -/
theorem c6_simultaneous_fire_witness :
    stA.in_grace = 0 ∧
    (tick cfgB (some (-50)) stA).2 = [Fire.SILENCE, Fire.NO_DYNAMIC] ∧
    (tick cfgB (some (-50)) stA).1.in_grace = 3 := by
  have h := c6_simultaneous_fire cfgB stA (-50) rfl (by norm_num [cfgB])
    (by norm_num [cfgB]) (by norm_num [cfgB, stA]) (by norm_num [cfgB, stA])
  exact ⟨rfl, h.1, h.2⟩


/-- C7 counterexample: with period 0, the very first evaluated tick fires
SILENCE even though its reading −10 dB is not below the −40 dB threshold
(the tick is not qualifying): `silence_count` is reset to 0 and
`0 >= 0` still fires.  So the detector does fire on an evaluated tick
before the first qualifying tick, contrary to the claim. -/
theorem c7_counterexample :
    ¬ ((-10 : ℚ) < cfgP0.silence_theshold) ∧
    (tick cfgP0 (some (-10)) initState).2 = [Fire.SILENCE] := by decide

/-- C7 amended: an enabled silence detector with debounce period zero
fires on every evaluated tick, whether or not the silence condition
holds on that tick — in particular on the very first qualifying tick,
but possibly also on evaluated non-qualifying ticks before it. -/
theorem c7_zero_period_fires (cfg : Config) (st : DState) (r : ℚ)
    (hg : st.in_grace = 0) (hs : cfg.silence_theshold ≠ 0)
    (hp : cfg.silence_period = 0) :
    Fire.SILENCE ∈ (tick cfg (some r) st).2 := by
  rw [tick_eval cfg r st hg]
  have h1 := silence_detect_fire cfg
    { st with last_peakdb := st.peakdb, peakdb := r } hs (by simp [hp])
  simp [h1]

/-- Witness for C7's amended statement at a concrete input: under `cfgP0`
the first tick fires SILENCE on a loud −10 dB reading. -/
theorem c7_zero_period_fires_witness :
    initState.in_grace = 0 ∧ cfgP0.silence_theshold ≠ 0 ∧ cfgP0.silence_period = 0 ∧
    Fire.SILENCE ∈ (tick cfgP0 (some (-10)) initState).2 :=
  ⟨rfl, by decide, rfl, c7_zero_period_fires cfgP0 initState (-10) rfl (by decide) rfl⟩

lemma if_lt_eq_max (p s : ℚ) : (if p < s then s else p) = max p s := by
  rcases le_or_lt s p with h | h
  · rw [if_neg (not_lt.mpr h), max_eq_left h]
  · rw [if_pos h, max_eq_right h.le]

lemma process_peak_eq (p : ℚ) (b : List ℚ) :
    process_peak p b = b.foldl (fun m s => max m |s|) p := by
  induction b generalizing p with
  | nil => rfl
  | cons a t ih =>
    show process_peak (if p < |a| then |a| else p) t =
        List.foldl (fun m s => max m |s|) (max p |a|) t
    rw [if_lt_eq_max p |a|]
    exact ih (max p |a|)

lemma foldl_max_abs (l : List ℚ) (p : ℚ) (hp : 0 ≤ p) :
    l.foldl (fun m s => max m |s|) p = max p (max_abs l) := by
  induction l generalizing p with
  | nil => simp [max_abs, max_eq_left hp]
  | cons a t ih =>
    have h1 : List.foldl (fun m s => max m |s|) p (a :: t) =
        t.foldl (fun m s => max m |s|) (max p |a|) := rfl
    have h2 : max_abs (a :: t) = max |a| (max_abs t) := by
      show t.foldl (fun m s => max m |s|) (max 0 |a|) = max |a| (max_abs t)
      rw [max_eq_right (abs_nonneg a)]
      exact ih |a| (abs_nonneg a)
    rw [h1, ih (max p |a|) (le_max_of_le_right (abs_nonneg a)), h2, max_assoc]

lemma observe_blocks_eq (p : ℚ) (blocks : List (List ℚ)) :
    observe_blocks p blocks = blocks.flatten.foldl (fun m s => max m |s|) p := by
  induction blocks generalizing p with
  | nil => rfl
  | cons b bs ih =>
    have h1 : observe_blocks p (b :: bs) = observe_blocks (process_peak p b) bs := rfl
    rw [h1, ih, process_peak_eq, List.flatten_cons, List.foldl_append]

lemma observe_blocks_append (p : ℚ) (a b : List (List ℚ)) :
    observe_blocks (observe_blocks p a) b = observe_blocks p (a ++ b) :=
  (List.foldl_append ..).symm

/-- C8: the accumulated peak cell, starting from a reset cell, equals the
maximum absolute sample value seen across all blocks since the reset
(each `process_peak` call updates the cell to the maximum of the current
peak and the block's largest absolute sample), and `read_peak` returns
(the decibel image of) exactly that maximum and resets the cell to
zero. -/
theorem c8_peak_accumulator (lin2db : ℚ → ℚ) (blocks : List (List ℚ))
    (p : ℚ) (block : List ℚ) (hp : 0 ≤ p) :
    process_peak p block = max p (max_abs block) ∧
    observe_blocks 0 blocks = max_abs blocks.flatten ∧
    (read_peak lin2db (observe_blocks 0 blocks)).1 = lin2db (max_abs blocks.flatten) ∧
    (read_peak lin2db (observe_blocks 0 blocks)).2 = 0 := by
  have h0 : observe_blocks 0 blocks = max_abs blocks.flatten := by
    rw [observe_blocks_eq]
    rfl
  refine ⟨?_, h0, ?_, rfl⟩
  · rw [process_peak_eq]
    exact foldl_max_abs block p hp
  · rw [read_peak, h0]

/-- Witness for C8 at a concrete input: two blocks whose largest absolute
sample value is 1. -/
theorem c8_peak_accumulator_witness :
    (0 : ℚ) ≤ 0 ∧
    observe_blocks 0 [[1/2, -1], [3/4]] = max_abs ([[1/2, -1], [3/4]] : List (List ℚ)).flatten ∧
    (read_peak id (observe_blocks 0 [[1/2, -1], [3/4]])).2 = 0 := by
  have h := c8_peak_accumulator id [[1/2, -1], [3/4]] 0 [] le_rfl
  exact ⟨le_rfl, h.2.1, h.2.2.2⟩

/-- C9: the claim's required atomicity does not hold of the code.
`read_peak` performs its read (line 53) and its reset (line 54) as two
separate unsynchronized operations on the global `peak`, so in the
interleaving read — observe 1 — reset, the sample 1 stored by the
producer between the two halves is zeroed without ever having been
returned by a read: the final cell is 0 and the only value ever read is
0.  Under the atomic read-and-reset the spec requires, either
serialization of the same two calls preserves the sample: it is either
left in the cell for the next read or returned by this one. -/
theorem c9_lost_update :
    (cell_run ⟨0, []⟩ [CellOp.rd, CellOp.obs 1, CellOp.rst]).peak = 0 ∧
    (cell_run ⟨0, []⟩ [CellOp.rd, CellOp.obs 1, CellOp.rst]).reads = [0] ∧
    (cell_step (atomic_read_reset ⟨0, []⟩) (CellOp.obs 1)).peak = 1 ∧
    (cell_step (atomic_read_reset ⟨0, []⟩) (CellOp.obs 1)).reads = [0] ∧
    (atomic_read_reset (cell_step ⟨0, []⟩ (CellOp.obs 1))).reads = [1] := by
  norm_num [cell_run, cell_step, atomic_read_reset]

lemma skipped_iff (st : LoopState) (inp : TickInput) :
    skipped st inp = true ↔ (0 < st.dst.in_grace ∨ inp.connected = false) := by
  simp [skipped, Nat.pos_iff_ne_zero]

lemma loop_tick_skipped (cfg : Config) (lin2db : ℚ → ℚ) (inp : TickInput)
    (st : LoopState) (h : skipped st inp = true) :
    (loop_tick cfg lin2db inp st).1.dst.peakdb = st.dst.peakdb ∧
    (loop_tick cfg lin2db inp st).1.dst.last_peakdb = st.dst.last_peakdb ∧
    (loop_tick cfg lin2db inp st).1.dst.silence_count = st.dst.silence_count ∧
    (loop_tick cfg lin2db inp st).1.dst.nodynamic_count = st.dst.nodynamic_count ∧
    (loop_tick cfg lin2db inp st).1.peak = observe_blocks st.peak inp.blocks ∧
    (loop_tick cfg lin2db inp st).2 = [] := by
  unfold loop_tick
  by_cases hg : 0 < st.dst.in_grace
  · simp [hg]
  · have hc : inp.connected = false := by
      rcases (skipped_iff st inp).mp h with h' | h'
      · exact absurd h' hg
      · exact h'
    simp [hg, hc]

lemma run_loop_cons (cfg : Config) (lin2db : ℚ → ℚ) (st : LoopState)
    (i : TickInput) (is : List TickInput) :
    run_loop cfg lin2db st (i :: is) =
      ((run_loop cfg lin2db (loop_tick cfg lin2db i st).1 is).1,
       (loop_tick cfg lin2db i st).2 ::
         (run_loop cfg lin2db (loop_tick cfg lin2db i st).1 is).2) := rfl

lemma run_loop_skipped (cfg : Config) (lin2db : ℚ → ℚ) (l : List TickInput)
    (st : LoopState) (h : all_skipped cfg lin2db st l = true) :
    (run_loop cfg lin2db st l).1.dst.peakdb = st.dst.peakdb ∧
    (run_loop cfg lin2db st l).1.dst.last_peakdb = st.dst.last_peakdb ∧
    (run_loop cfg lin2db st l).1.peak =
      observe_blocks st.peak (l.map TickInput.blocks).flatten ∧
    (run_loop cfg lin2db st l).2.flatten = [] := by
  induction l generalizing st with
  | nil => simp [run_loop, observe_blocks]
  | cons i is ih =>
    have h1 : skipped st i = true ∧
        all_skipped cfg lin2db (loop_tick cfg lin2db i st).1 is = true := by
      simpa [all_skipped] using h
    obtain ⟨hski, hrest⟩ := h1
    obtain ⟨t1, t2, t3, t4, t5, t6⟩ := loop_tick_skipped cfg lin2db i st hski
    obtain ⟨r1, r2, r3, r4⟩ := ih (loop_tick cfg lin2db i st).1 hrest
    rw [run_loop_cons]
    refine ⟨r1.trans t1, r2.trans t2, ?_, ?_⟩
    · rw [r3, t5, observe_blocks_append]
      simp
    · simp [t6, r4]

lemma loop_tick_evaluated (cfg : Config) (lin2db : ℚ → ℚ) (inp : TickInput)
    (st : LoopState) (hg : st.dst.in_grace = 0) (hc : inp.connected = true) :
    (loop_tick cfg lin2db inp st).1.dst.last_peakdb = st.dst.peakdb ∧
    (loop_tick cfg lin2db inp st).1.dst.peakdb =
      lin2db (observe_blocks st.peak inp.blocks) ∧
    (loop_tick cfg lin2db inp st).1.peak = 0 := by
  unfold loop_tick
  simp [hg, hc, read_peak]

/-- C10: over a run of skipped ticks (each with grace active or the
input port unconnected) starting from a freshly reset peak cell, the
current and previous decibel readings never move, no fire is emitted,
and the peak cell just keeps accumulating the interval's blocks; on the
first evaluated tick after the interval, the previous reading used for
the no-dynamic delta is the reading from before the interval, the
current reading is the decibel image of the peak accumulated over the
entire skipped interval plus the current tick, and the cell is reset. -/
theorem c10_skipped_interval (cfg : Config) (lin2db : ℚ → ℚ)
    (st : LoopState) (l : List TickInput) (i : TickInput)
    (hp : st.peak = 0)
    (hs : all_skipped cfg lin2db st l = true)
    (hg : (run_loop cfg lin2db st l).1.dst.in_grace = 0)
    (hc : i.connected = true) :
    (run_loop cfg lin2db st l).1.dst.peakdb = st.dst.peakdb ∧
    (run_loop cfg lin2db st l).1.dst.last_peakdb = st.dst.last_peakdb ∧
    (run_loop cfg lin2db st l).2.flatten = [] ∧
    (run_loop cfg lin2db st l).1.peak =
      observe_blocks 0 (l.map TickInput.blocks).flatten ∧
    (loop_tick cfg lin2db i (run_loop cfg lin2db st l).1).1.dst.last_peakdb =
      st.dst.peakdb ∧
    (loop_tick cfg lin2db i (run_loop cfg lin2db st l).1).1.dst.peakdb =
      lin2db (observe_blocks 0 ((l.map TickInput.blocks).flatten ++ i.blocks)) ∧
    (loop_tick cfg lin2db i (run_loop cfg lin2db st l).1).1.peak = 0 := by
  obtain ⟨r1, r2, r3, r4⟩ := run_loop_skipped cfg lin2db l st hs
  obtain ⟨e1, e2, e3⟩ :=
    loop_tick_evaluated cfg lin2db i (run_loop cfg lin2db st l).1 hg hc
  rw [hp] at r3
  refine ⟨r1, r2, r4, r3, e1.trans r1, ?_, e3⟩
  rw [e2, r3, observe_blocks_append]




/-- Witness for C10 at a concrete input: after a grace tick and a
disconnected tick, the evaluated tick still sees −30 dB as the previous
reading and resets the cell. -/
theorem c10_skipped_interval_witness :
    lsC.peak = 0 ∧
    all_skipped cfgA id lsC l10 = true ∧
    (run_loop cfgA id lsC l10).1.dst.in_grace = 0 ∧
    f10.connected = true ∧
    (loop_tick cfgA id f10 (run_loop cfgA id lsC l10).1).1.dst.last_peakdb = -30 ∧
    (loop_tick cfgA id f10 (run_loop cfgA id lsC l10).1).1.peak = 0 := by
  have h := c10_skipped_interval cfgA id lsC l10 f10 rfl (by decide) (by decide) rfl
  exact ⟨rfl, by decide, by decide, rfl, h.2.2.2.2.1, h.2.2.2.2.2.2⟩

end SilentJack
